import Mathlib

/-!
Verification of the LittleLemonAPI restaurant ordering service
(`src/LittleLemonAPI/serializers.py`, `views.py`, `permissions.py`,
`urls.py`) against its natural-language specification.

Shallow embedding conventions:
* Database rows (`Cart`, `Order`, `OrderItem` and the menu) are records in
  lists inside a `DB` state; each ORM statement becomes a pure state update.
* Decimal prices are exact in the source (Django `DecimalField`); every
  operation performed on them (copy, multiplication by an integer quantity,
  summation) is closed over integer multiples of one hundredth of the
  currency unit, so prices are modelled as `Int` counts of hundredths.
* Serializer failures (`ValidationError`, `NotFound`, permission denials)
  become `Except`/explicit response values.
-/

namespace LittleLemon

abbrev UserId := Nat
abbrev MenuItemId := Nat

/-- A row of the `Cart` model: `(user, menuitem)` with quantity and the two
prices stored at creation time (`CartSerializer.create`). -/
structure CartLine where
  user : UserId
  menuitem : MenuItemId
  quantity : Int
  unit_price : Int
  price : Int
  deriving DecidableEq, Repr

/-- A row of the `Order` model, with the fields exposed by `OrderSerializer`
(`id`, `user`, `delivery_crew`, `status`, `total`, `date`).
Modelled from the spec: `models.py` is not part of the sources, so the
defaults used at creation (`status` = undelivered = `false`, `date` = the
current date, no delivery-crew assignment) follow the spec's data model,
which gives `status` default undelivered and `date` the creation date. -/
structure Order where
  id : Nat
  user : UserId
  delivery_crew : Option UserId
  status : Bool
  total : Int
  date : Nat
  deriving DecidableEq, Repr

/-- A row of the `OrderItem` model: the snapshot of one cart line taken by
`OrderSerializer.create`, referencing its order by id. -/
structure OrderItem where
  order : Nat
  menuitem : MenuItemId
  quantity : Int
  unit_price : Int
  price : Int
  deriving DecidableEq, Repr

/-- The persistent state the claims touch: menu prices, cart lines, orders
and order items, plus the id the next `Order.objects.create` will assign and
the current date. -/
structure DB where
  menu : List (MenuItemId × Int)
  carts : List CartLine
  orders : List Order
  orderItems : List OrderItem
  nextOrderId : Nat
  today : Nat
  deriving DecidableEq, Repr

/-- `Cart.objects.filter(user=user)`. -/
def cartsFor (db : DB) (u : UserId) : List CartLine :=
  db.carts.filter (fun c => c.user == u)

/-- One `OrderItem(...)` constructed in the loop of `OrderSerializer.create`:
it copies `menuitem`, `quantity`, `unit_price` and `price` from the cart line
and references the new order. -/
def snapshotItem (oid : Nat) (c : CartLine) : OrderItem :=
  { order := oid
    menuitem := c.menuitem
    quantity := c.quantity
    unit_price := c.unit_price
    price := c.price }

/-- `OrderSerializer.create` (serializers.py lines 98-128) run as one
sequential request: reject when the user's cart is empty, otherwise compute
`total` as the aggregated sum of the cart lines' prices, create one order
owned by the user, bulk-create one snapshot item per cart line, and delete
the user's cart lines.  On the error path nothing has been written, so the
state is returned unchanged. -/
def placeOrder (db : DB) (u : UserId) : DB × Except String Order :=
  if (cartsFor db u).isEmpty then
    (db, Except.error "Cart is empty.")
  else
    let carts := cartsFor db u
    let total := (carts.map (fun c => c.price)).sum
    let order : Order :=
      { id := db.nextOrderId, user := u, delivery_crew := none
        status := false, total := total, date := db.today }
    let items := carts.map (snapshotItem order.id)
    ({ db with
        orders := db.orders ++ [order]
        orderItems := db.orderItems ++ items
        carts := db.carts.filter (fun c => !(c.user == u))
        nextOrderId := db.nextOrderId + 1 },
     Except.ok order)

end LittleLemon

namespace LittleLemon

/-- The concrete scenario of the spec: customer 1's cart holds item 1
(unit price 10.00, i.e. 1000 hundredths, qty 2, price 20.00) and item 2
(unit price 5.00, qty 1, price 5.00). -/
def scenarioDB : DB :=
  { menu := [(1, 1000), (2, 500)]
    carts := [⟨1, 1, 2, 1000, 2000⟩, ⟨1, 2, 1, 500, 500⟩]
    orders := []
    orderItems := []
    nextOrderId := 0
    today := 20261012 }

/-- The fields `OrderSerializer.Meta.fields` exposes:
`['id', 'user', 'delivery_crew', 'status', 'total', 'date']`. -/
inductive OrderField where
  | id
  | user
  | delivery_crew
  | status
  | total
  | date
  deriving DecidableEq, Repr

/-- The writable fields of `OrderSerializer`: `Meta.read_only_fields`
declares `user`, `total` and `date` read-only, `id` is read-only by default,
leaving `delivery_crew` and `status`. -/
def writableOrderFields : List OrderField :=
  [OrderField.delivery_crew, OrderField.status]

/-- The keys of the `attrs` dict the serializer builds from a submitted
change set: deserialization iterates only the writable fields, so keys of
read-only fields are dropped, not rejected. -/
def toInternalKeys (submitted : List OrderField) : List OrderField :=
  submitted.filter (fun f => writableOrderFields.contains f)

/-- `OrderSerializer.validate` (serializers.py lines 89-96), on the keys of
`attrs`: when the requesting user is in the `delivery_crew` group, raise
unless `attrs` has at most one key and contains `status`; otherwise pass. -/
def orderValidatePasses (isDeliveryCrew : Bool) (attrs : List OrderField) :
    Bool :=
  if isDeliveryCrew then
    if attrs.length > 1 || !(attrs.contains OrderField.status) then
      false
    else
      true
  else
    true

/-- The whole validation run on a submitted change set: strip the read-only
keys, then apply `OrderSerializer.validate`. -/
def orderRunValidation (isDeliveryCrew : Bool)
    (submitted : List OrderField) : Bool :=
  orderValidatePasses isDeliveryCrew (toInternalKeys submitted)

/-- A submitted order-update payload: for each serializer field, `some v`
when the change set carries that key with value `v`. -/
structure OrderUpdate where
  user : Option UserId
  delivery_crew : Option (Option UserId)
  status : Option Bool
  total : Option Int
  date : Option Nat
  deriving DecidableEq, Repr

/-- The keys present in a submitted payload. -/
def OrderUpdate.keys (upd : OrderUpdate) : List OrderField :=
  (if upd.user.isSome then [OrderField.user] else []) ++
  (if upd.delivery_crew.isSome then [OrderField.delivery_crew] else []) ++
  (if upd.status.isSome then [OrderField.status] else []) ++
  (if upd.total.isSome then [OrderField.total] else []) ++
  (if upd.date.isSome then [OrderField.date] else [])

/-- The model-serializer update step: set each writable attribute present in
`attrs` on the instance.  Only `delivery_crew` and `status` can occur in
`attrs`, so only they are assigned. -/
def applyUpdate (o : Order) (upd : OrderUpdate) : Order :=
  { o with
      delivery_crew := upd.delivery_crew.getD o.delivery_crew
      status := upd.status.getD o.status }

/-- An order update (PUT or PATCH) through `OrderSerializer`: deserialize
(dropping read-only keys), run `validate`, and on success apply the
remaining attributes to the stored order. -/
def orderUpdate (isDeliveryCrew : Bool) (o : Order) (upd : OrderUpdate) :
    Except String Order :=
  if orderValidatePasses isDeliveryCrew (toInternalKeys upd.keys) then
    Except.ok (applyUpdate o upd)
  else
    Except.error "Only status field is editable."

/-- A stored order used as concrete input in several witnesses. -/
def sampleOrder : Order :=
  { id := 7, user := 1, delivery_crew := none, status := false
    total := 2500, date := 20261012 }

/-- A payload that only sets `total` (to 99.00). -/
def totalOnlyUpdate : OrderUpdate :=
  { user := none, delivery_crew := none, status := none
    total := some 9900, date := none }

/-- A payload that only sets `status`. -/
def statusOnlyUpdate : OrderUpdate :=
  { user := none, delivery_crew := none, status := some true
    total := none, date := none }

/-- The group memberships `OrderViewSet.get_queryset` tests, one flag per
`user.groups.filter(name=...).exists()` query. -/
structure Groups where
  manager : Bool
  customer : Bool
  delivery_crew : Bool
  deriving DecidableEq, Repr

/-- `OrderViewSet.get_queryset` (views.py lines 266-279): assign
`self.queryset` in the first matching branch, then return
`super().get_queryset()`.  `OrderViewSet` declares no class-level queryset,
so when no branch matches, `self.queryset` is still `None` and the
superclass's `assert self.queryset is not None` fails; `none` here stands
for that assertion failure (a server error, not a response). -/
def getOrdersQueryset (g : Groups) (u : UserId) (allOrders : List Order) :
    Option (List Order) :=
  if g.manager then
    some allOrders
  else if g.customer then
    some (allOrders.filter (fun o => o.user == u))
  else if g.delivery_crew then
    some (allOrders.filter (fun o => o.delivery_crew == some u))
  else
    none

/-- `MenuItem.objects.get(pk=...)`-style price lookup used by
`CartSerializer.create` through the validated `menuitem` reference; `none`
when the referenced menu item does not exist (the primary-key related field
rejects the payload in that case, before any validator runs). -/
def menuPriceOf (db : DB) (mi : MenuItemId) : Option Int :=
  (db.menu.find? (fun p => p.fst == mi)).map (fun p => p.snd)

/-- Cart-line creation through `CartSerializer` (serializers.py lines
47-78): resolve the referenced menu item, run the `UniqueTogetherValidator`
on `(user, menuitem)` (message "Item is already in the cart."), run
`validate` (reject `quantity <= 0`), then `create` copies `unit_price` from
the menu item, derives `price = unit_price * quantity` and inserts the
row.  Every error path leaves the state unchanged. -/
def cartCreate (db : DB) (u : UserId) (mi : MenuItemId) (qty : Int) :
    DB × Except String CartLine :=
  match menuPriceOf db mi with
  | none => (db, Except.error "menuitem does not exist")
  | some up =>
    if db.carts.any (fun c => c.user == u && c.menuitem == mi) then
      (db, Except.error "Item is already in the cart.")
    else if qty ≤ 0 then
      (db, Except.error "quantity cannot be 0 or less than 0.")
    else
      let line : CartLine :=
        { user := u, menuitem := mi, quantity := qty
          unit_price := up, price := up * qty }
      ({ db with carts := db.carts ++ [line] }, Except.ok line)

/-- The cart invariant of the spec: a `(user, menu item)` pair appears at
most once among the stored cart lines. -/
def uniquePairs (carts : List CartLine) : Prop :=
  carts.Pairwise (fun a b => ¬(a.user = b.user ∧ a.menuitem = b.menuitem))

/-- The relevant response classes for the group-membership endpoint. -/
inductive HttpResp where
  | notFound
  | unauthorized
  | forbidden
  | allowed
  deriving DecidableEq, Repr

/-- The framework part of `GroupView`'s request setup, reached from
`super().initial(...)`: authenticate (`401` when no valid credential), then
check the permission classes `IsAuthenticated, IsManager` in order (`403`
when the caller is not a manager). -/
def groupViewAuthCheck (authenticated : Bool) (isManager : Bool) : HttpResp :=
  if !authenticated then
    HttpResp.unauthorized
  else if !isManager then
    HttpResp.forbidden
  else
    HttpResp.allowed

/-- `GroupView.initial` (views.py lines 115-133): branch on the `role` path
segment first — raising `NotFound` for anything other than `manager` or
`delivery-crew` — and only then call `super().initial(...)`, which performs
authentication and the permission checks. -/
def groupViewInitial (role : String) (authenticated : Bool)
    (isManager : Bool) : HttpResp :=
  if role == "manager" then
    groupViewAuthCheck authenticated isManager
  else if role == "delivery-crew" then
    groupViewAuthCheck authenticated isManager
  else
    HttpResp.notFound

/-- Program counter of one in-flight order-placement request, one label per
database statement `OrderSerializer.create` issues.  Without a transaction
around them (the code opens none), each statement commits on its own, so
statements of two concurrent requests may interleave freely. -/
inductive ReqPC where
  | start
  | checked
  | didRead
  | didOrder
  | didItems
  | done
  | failed
  deriving DecidableEq, Repr

/-- One in-flight order-placement request: the requesting user, its program
counter, the cart rows its queryset evaluation returned, and the id of the
order it created. -/
structure Req where
  user : UserId
  pc : ReqPC
  snapshot : List CartLine
  orderId : Nat
  deriving DecidableEq, Repr

/-- One database statement of `OrderSerializer.create`, as a step of the
request against the shared state: the emptiness check, the cart read
(aggregate + iteration), `Order.objects.create`, `bulk_create` of the
items, and `carts.delete()` (which deletes by filter, i.e. every cart row
of the user present at that moment). -/
def stepReq (db : DB) (r : Req) : DB × Req :=
  match r.pc with
  | ReqPC.start =>
      if (cartsFor db r.user).isEmpty then
        (db, { r with pc := ReqPC.failed })
      else
        (db, { r with pc := ReqPC.checked })
  | ReqPC.checked =>
      (db, { r with snapshot := cartsFor db r.user, pc := ReqPC.didRead })
  | ReqPC.didRead =>
      let total := (r.snapshot.map (fun c => c.price)).sum
      let order : Order :=
        { id := db.nextOrderId, user := r.user, delivery_crew := none
          status := false, total := total, date := db.today }
      ({ db with
          orders := db.orders ++ [order]
          nextOrderId := db.nextOrderId + 1 },
       { r with orderId := order.id, pc := ReqPC.didOrder })
  | ReqPC.didOrder =>
      ({ db with
          orderItems := db.orderItems ++ r.snapshot.map (snapshotItem r.orderId) },
       { r with pc := ReqPC.didItems })
  | ReqPC.didItems =>
      ({ db with carts := db.carts.filter (fun c => !(c.user == r.user)) },
       { r with pc := ReqPC.done })
  | ReqPC.done => (db, r)
  | ReqPC.failed => (db, r)

/-- Shared state plus two concurrent order-placement requests. -/
structure ConcState where
  db : DB
  r1 : Req
  r2 : Req
  deriving DecidableEq, Repr

/-- Run one statement of the request picked by the scheduler
(`false` = first request, `true` = second). -/
def schedStep (s : ConcState) (pick : Bool) : ConcState :=
  if pick then
    let next := stepReq s.db s.r2
    { s with db := next.1, r2 := next.2 }
  else
    let next := stepReq s.db s.r1
    { s with db := next.1, r1 := next.2 }

/-- Run a whole schedule of statement interleavings. -/
def runSched (s : ConcState) : List Bool → ConcState
  | [] => s
  | p :: ps => runSched (schedStep s p) ps

/-- A database whose only cart line belongs to user 1: one snapshot worth
20.00 (item 1, qty 2 at 10.00). -/
def oneLineDB : DB :=
  { menu := [(1, 1000)]
    carts := [⟨1, 1, 2, 1000, 2000⟩]
    orders := []
    orderItems := []
    nextOrderId := 0
    today := 20261012 }

/-- A just-arrived order-placement request by user 1. -/
def freshReq : Req :=
  { user := 1, pc := ReqPC.start, snapshot := [], orderId := 0 }

/-- The duplicate-submission interleaving: the two requests alternate, so
both evaluate the emptiness check and read the cart before either deletes
it. -/
def duplicateSched : List Bool :=
  [false, true, false, true, false, true, false, true, false, true]

end LittleLemon

open LittleLemon

/-- C1: placing an order from a non-empty cart creates exactly one new order,
owned by the requesting user, whose total is the sum of the cart lines'
prices; appends exactly one order item per cart line, each copying that
line's menu item, quantity, unit price and price and referencing the new
order; and afterwards the user's cart is empty. -/
theorem place_order_creates_order_items_and_empties_cart
    (db : DB) (u : UserId) (h : cartsFor db u ≠ []) :
    ∃ o : Order, ∃ db' : DB,
      placeOrder db u = (db', Except.ok o) ∧
      o.user = u ∧
      o.total = ((cartsFor db u).map (fun c => c.price)).sum ∧
      db'.orders = db.orders ++ [o] ∧
      db'.orderItems = db.orderItems ++ (cartsFor db u).map (snapshotItem o.id) ∧
      cartsFor db' u = [] := by
  have hne : (cartsFor db u).isEmpty = false := by
    simpa [List.isEmpty_iff] using h
  simp only [placeOrder, hne, Bool.false_eq_true, if_false]
  refine ⟨_, _, rfl, rfl, rfl, rfl, rfl, ?_⟩
  simp [cartsFor, List.filter_filter]

/-- Witness for C1 at the spec's scenario: cart of customer 1 is non-empty
and the conclusion holds there. -/
theorem place_order_creates_order_items_and_empties_cart_witness :
    cartsFor scenarioDB 1 ≠ [] ∧
    ∃ o : Order, ∃ db' : DB,
      placeOrder scenarioDB 1 = (db', Except.ok o) ∧
      o.user = 1 ∧
      o.total = ((cartsFor scenarioDB 1).map (fun c => c.price)).sum ∧
      db'.orders = scenarioDB.orders ++ [o] ∧
      db'.orderItems =
        scenarioDB.orderItems ++ (cartsFor scenarioDB 1).map (snapshotItem o.id) ∧
      cartsFor db' 1 = [] :=
  ⟨by decide,
   place_order_creates_order_items_and_empties_cart scenarioDB 1 (by decide)⟩

/-- C3: when the requesting user's cart has no lines, order placement fails
with the "Cart is empty." validation error and the state is unchanged — no
order and no order items are created. -/
theorem place_order_empty_cart_rejected
    (db : DB) (u : UserId) (h : cartsFor db u = []) :
    placeOrder db u = (db, Except.error "Cart is empty.") := by
  rw [placeOrder, if_pos (by simp [List.isEmpty_iff, h])]

/-- Witness for C3: a fresh database with an empty cart for user 7. -/
theorem place_order_empty_cart_rejected_witness :
    cartsFor { menu := [(1, 1000)], carts := [], orders := [], orderItems := [],
               nextOrderId := 0, today := 0 } 7 = [] ∧
    placeOrder { menu := [(1, 1000)], carts := [], orders := [], orderItems := [],
                 nextOrderId := 0, today := 0 } 7 =
      ({ menu := [(1, 1000)], carts := [], orders := [], orderItems := [],
         nextOrderId := 0, today := 0 }, Except.error "Cart is empty.") :=
  ⟨by decide,
   place_order_empty_cart_rejected _ 7 (by decide)⟩

/-- C4 counterexample: a delivery-crew change set holding `status` plus the
read-only key `total` has two fields, yet validation succeeds, because
deserialization drops read-only keys before `OrderSerializer.validate`
sees `attrs`.  The claim requires any change set other than exactly
`[status]` to fail. -/
theorem delivery_crew_two_key_change_set_passes :
    orderRunValidation true [OrderField.status, OrderField.total] = true ∧
    [OrderField.status, OrderField.total] ≠ [OrderField.status] := by
  decide

/-- C4 amended: a delivery-crew order update passes validation iff the
payload sets `status` and does not set `delivery_crew`; keys for the
read-only fields `user`, `total`, `date` are stripped before validation and
never cause rejection. -/
theorem delivery_crew_update_validation_iff (upd : OrderUpdate) :
    orderRunValidation true upd.keys = true ↔
      (upd.status ≠ none ∧ upd.delivery_crew = none) := by
  rcases upd with ⟨u, d, s, t, dt⟩
  cases u <;> cases d <;> cases s <;> cases t <;> cases dt <;>
    simp [orderRunValidation, OrderUpdate.keys, toInternalKeys,
      orderValidatePasses, writableOrderFields]

/-- C5 counterexample: a manager submits an update setting `total` to 99.00
on an order whose total is 25.00; the update succeeds but returns the order
unchanged, with total still 25.00 — `total` is read-only even for managers,
so not every field is editable. -/
theorem manager_cannot_edit_total :
    orderUpdate false sampleOrder totalOnlyUpdate = Except.ok sampleOrder ∧
    sampleOrder.total ≠ 9900 :=
  ⟨rfl, by decide⟩

/-- C5 amended: a manager's update (PUT or PATCH) always passes validation,
whatever the change set, and edits the two writable fields `delivery_crew`
and `status`; the read-only fields `user`, `total` and `date` keep their
stored values. -/
theorem manager_update_edits_exactly_writable_fields
    (o : Order) (upd : OrderUpdate) :
    ∃ o' : Order, orderUpdate false o upd = Except.ok o' ∧
      o'.delivery_crew = upd.delivery_crew.getD o.delivery_crew ∧
      o'.status = upd.status.getD o.status ∧
      o'.user = o.user ∧ o'.total = o.total ∧ o'.date = o.date :=
  ⟨applyUpdate o upd, rfl, rfl, rfl, rfl, rfl, rfl⟩

/-- C6: any successful order update, by any role reaching the serializer
(manager or delivery crew), leaves the order's owning user, total and
creation date unchanged: those fields are read-only and never assigned by
the update step. -/
theorem order_update_preserves_user_total_date (isDC : Bool) (o o' : Order)
    (upd : OrderUpdate) (h : orderUpdate isDC o upd = Except.ok o') :
    o'.user = o.user ∧ o'.total = o.total ∧ o'.date = o.date := by
  unfold orderUpdate at h
  split at h
  · rw [Except.ok.injEq] at h
    subst h
    exact ⟨rfl, rfl, rfl⟩
  · simp at h

/-- Witness for C6: a delivery-crew status flip on the sample order keeps
user, total and date. -/
theorem order_update_preserves_user_total_date_witness :
    (applyUpdate sampleOrder statusOnlyUpdate).user = sampleOrder.user ∧
    (applyUpdate sampleOrder statusOnlyUpdate).total = sampleOrder.total ∧
    (applyUpdate sampleOrder statusOnlyUpdate).date = sampleOrder.date :=
  order_update_preserves_user_total_date true sampleOrder
    (applyUpdate sampleOrder statusOnlyUpdate) statusOnlyUpdate rfl

/-- Sanity check tying the interleaved machine to the sequential embedding:
a single request stepped through all five statements with no interference
produces exactly the state and outcome of `placeOrder`. -/
theorem runSched_single_request_matches_placeOrder :
    (runSched ⟨scenarioDB, freshReq, freshReq⟩
        [false, false, false, false, false]).db = (placeOrder scenarioDB 1).1 ∧
    (runSched ⟨scenarioDB, freshReq, freshReq⟩
        [false, false, false, false, false]).r1.pc = ReqPC.done := by
  decide

/-- C2 evidence: `OrderSerializer.create` opens no transaction, so its five
database statements autocommit one by one.  Under the alternating schedule,
two duplicate submissions of user 1's single-line cart (one line, price
20.00) both pass the emptiness check and both read the cart before either
deletes it: both requests complete and the final state holds two orders of
total 20.00 each and two order items — one cart snapshot was charged
twice, which the claim (and the spec's atomicity requirement) forbids. -/
theorem unguarded_placement_duplicates_order_from_one_cart :
    oneLineDB.carts.length = 1 ∧
    (runSched ⟨oneLineDB, freshReq, freshReq⟩ duplicateSched).db.orders.length = 2 ∧
    (∀ o ∈ (runSched ⟨oneLineDB, freshReq, freshReq⟩ duplicateSched).db.orders,
      o.total = 2000) ∧
    (runSched ⟨oneLineDB, freshReq, freshReq⟩ duplicateSched).db.orderItems.length = 2 ∧
    (runSched ⟨oneLineDB, freshReq, freshReq⟩ duplicateSched).r1.pc = ReqPC.done ∧
    (runSched ⟨oneLineDB, freshReq, freshReq⟩ duplicateSched).r2.pc = ReqPC.done := by
  decide

/-- C7: order listing is scoped by role — a manager's queryset holds every
order, a customer's exactly the orders they own, and a delivery-crew
member's exactly the orders assigned to them (group flags as resolved for a
user holding that single role). -/
theorem order_listing_scoped_by_role
    (u : UserId) (orders : List Order) (o : Order) :
    (o ∈ (getOrdersQueryset ⟨true, false, false⟩ u orders).getD [] ↔
      o ∈ orders) ∧
    (o ∈ (getOrdersQueryset ⟨false, true, false⟩ u orders).getD [] ↔
      o ∈ orders ∧ o.user = u) ∧
    (o ∈ (getOrdersQueryset ⟨false, false, true⟩ u orders).getD [] ↔
      o ∈ orders ∧ o.delivery_crew = some u) := by
  simp [getOrdersQueryset, List.mem_filter]

/-- C8 counterexample: an authenticated user in none of the three groups
takes no branch of `get_queryset`, so `self.queryset` is never assigned
(`none`): the superclass assertion on a missing queryset fails with a
server error instead of the well-defined (empty or unfiltered-but-denied)
result the claim requires. -/
theorem no_role_order_listing_hits_unset_queryset :
    getOrdersQueryset ⟨false, false, false⟩ 1 [sampleOrder] = none := by
  decide

/-- C8 amended: the query-scoping function is not total — for every
authenticated user belonging to none of manager, customer and
delivery_crew, no branch assigns a queryset and the request fails on the
framework's missing-queryset assertion (a server error) rather than
yielding an empty or unfiltered result. -/
theorem no_role_order_listing_always_undefined
    (u : UserId) (orders : List Order) :
    getOrdersQueryset ⟨false, false, false⟩ u orders = none :=
  rfl

/-- C9: creating a cart line whose `(user, menu item)` pair already exists
among the stored cart lines fails with the surfaced uniqueness message
"Item is already in the cart." and leaves the state unchanged; and cart
creation preserves the at-most-once invariant on `(user, menu item)`
pairs. -/
theorem cart_duplicate_rejected_and_pair_uniqueness_preserved
    (db : DB) (u : UserId) (mi : MenuItemId) (qty : Int) :
    ((menuPriceOf db mi ≠ none ∧ ∃ c ∈ db.carts, c.user = u ∧ c.menuitem = mi) →
      cartCreate db u mi qty = (db, Except.error "Item is already in the cart.")) ∧
    (uniquePairs db.carts → uniquePairs (cartCreate db u mi qty).1.carts) := by
  constructor
  · rintro ⟨hm, c, hc, hu, hmi⟩
    rcases hmp : menuPriceOf db mi with _ | up
    · exact absurd hmp hm
    · have hany : db.carts.any (fun c => c.user == u && c.menuitem == mi) = true := by
        rw [List.any_eq_true]
        exact ⟨c, hc, by simp [hu, hmi]⟩
      simp [cartCreate, hmp, hany]
  · intro hup
    unfold cartCreate
    rcases hmp : menuPriceOf db mi with _ | up
    · exact hup
    · by_cases hany : db.carts.any (fun c => c.user == u && c.menuitem == mi) = true
      · simpa [hany] using hup
      · by_cases hq : qty ≤ 0
        · simpa [hany, hq] using hup
        · have hnone : ∀ c ∈ db.carts, ¬(c.user = u ∧ c.menuitem = mi) := by
            intro c hc hcontra
            exact hany (List.any_eq_true.mpr
              ⟨c, hc, by simp [hcontra.1, hcontra.2]⟩)
          simp only [hany, hq, if_false, Bool.false_eq_true]
          rw [uniquePairs, List.pairwise_append]
          refine ⟨hup, List.pairwise_singleton _ _, ?_⟩
          intro a ha b hb
          rw [List.mem_singleton] at hb
          subst hb
          exact hnone a ha

/-- Witness for C9 at the spec scenario: user 1 already has item 1 in the
cart, so a second insertion of the pair is rejected with the uniqueness
message and the state stays unchanged; the uniqueness invariant holds
afterwards. -/
theorem cart_duplicate_rejected_witness :
    cartCreate scenarioDB 1 1 3 =
      (scenarioDB, Except.error "Item is already in the cart.") ∧
    uniquePairs (cartCreate scenarioDB 1 1 3).1.carts :=
  ⟨(cart_duplicate_rejected_and_pair_uniqueness_preserved scenarioDB 1 1 3).1
     ⟨by decide, ⟨1, 1, 2, 1000, 2000⟩, by decide, rfl, rfl⟩,
   (cart_duplicate_rejected_and_pair_uniqueness_preserved scenarioDB 1 1 3).2
     (by unfold uniquePairs; decide)⟩

/-- C10 counterexample: an unauthenticated request to the group-membership
endpoint with the unrecognized role segment "staff" is answered with Not
Found, because `GroupView.initial` branches on the role segment and raises
`NotFound` before `super().initial` ever authenticates — not with the
Unauthorized the claim requires. -/
theorem unauthenticated_unknown_role_gets_not_found :
    groupViewInitial "staff" false false = HttpResp.notFound ∧
    HttpResp.notFound ≠ HttpResp.unauthorized := by
  decide

/-- C10 amended: on the group-membership endpoint the role path segment is
checked before authentication: any role other than `manager` and
`delivery-crew` yields Not Found whatever the credentials, and for a
recognized role an unauthenticated request yields Unauthorized before the
manager-role check. -/
theorem group_view_role_check_precedes_authentication
    (role : String) (authenticated isManager : Bool) :
    (role ≠ "manager" → role ≠ "delivery-crew" →
      groupViewInitial role authenticated isManager = HttpResp.notFound) ∧
    ((role = "manager" ∨ role = "delivery-crew") → authenticated = false →
      groupViewInitial role authenticated isManager = HttpResp.unauthorized) := by
  constructor
  · intro h1 h2
    simp [groupViewInitial, h1, h2]
  · rintro (rfl | rfl) rfl <;>
      simp [groupViewInitial, groupViewAuthCheck]

/-- Witness for C10's amended statement: the unknown segment "staff" is
answered Not Found even for an authenticated manager, and an
unauthenticated request on the recognized segment "manager" is answered
Unauthorized. -/
theorem group_view_role_check_precedes_authentication_witness :
    groupViewInitial "staff" true true = HttpResp.notFound ∧
    groupViewInitial "manager" false true = HttpResp.unauthorized :=
  ⟨(group_view_role_check_precedes_authentication "staff" true true).1
     (by decide) (by decide),
   (group_view_role_check_precedes_authentication "manager" false true).2
     (Or.inl rfl) rfl⟩
